import Mathlib

/-!
Shallow embedding of the Stateful Claims Management System
(`models.py`, `schemas.py`, `claims_service.py`).

Modelling conventions:
- UUIDs are modelled as natural numbers.
- Monetary amounts (`Float(precision=2)` columns) are modelled as integers
  (e.g. cents); the code only compares amounts, never does arithmetic on
  them, so the ordered-field structure is all that matters.
- A Python `datetime` is a pair of an instant (microseconds, `Int`) and an
  awareness flag.  For an aware datetime `micros` is the UTC instant; for a
  naive one it is the raw clock reading.  `tzinfo=timezone.utc` replacement
  and `pytz.UTC.localize` both reinterpret the clock reading as UTC, which
  is `aware := true` with `micros` unchanged; `astimezone(UTC)` on an aware
  datetime does not move the instant.
- A `date` column is a day number (`Int`); `datetime.combine(d,
  datetime.min.time())` is midnight of that day and `datetime.combine(d,
  datetime.max.time())` is `23:59:59.999999`, i.e. the last microsecond.
- Each `raise ValueError(...)` site in the service and each `@validates`
  raise in the models becomes one constructor of `ServiceError`; the
  service methods return `Except` paired with the resulting store, the
  store being returned unchanged on error (the service rolls the session
  back on every exception, so no partial write survives).
- The database session/repository is modelled as an in-memory store of
  lists; `select ... where id == x` is `List.find?`.
-/

namespace ClaimsMgmt

/-- models.ClaimStatus -/
inductive ClaimStatus where
  | SUBMITTED
  | UNDER_REVIEW
  | ADDITIONAL_INFO_REQUIRED
  | APPROVED
  | REJECTED
  | SETTLED
  deriving DecidableEq, Repr

/-- models.PolicyStatus -/
inductive PolicyStatus where
  | ACTIVE
  | EXPIRED
  | CANCELLED
  | PENDING
  deriving DecidableEq, Repr

/-- models.PolicyType -/
inductive PolicyType where
  | AUTO
  | HEALTH
  | PROPERTY
  | LIFE
  deriving DecidableEq, Repr

/-- Microseconds in one day (Python datetimes have microsecond precision). -/
def usPerDay : Int := 86400000000

/-- Microseconds in one second. -/
def usPerSec : Int := 1000000

/-- A Python `datetime`: an instant in microseconds plus whether it carries
timezone information.  For aware values `micros` is the UTC instant; for
naive ones it is the clock reading, which UTC-localisation reinterprets as
a UTC instant without changing `micros`. -/
structure PyDateTime where
  micros : Int
  aware : Bool
  deriving DecidableEq, Repr

/-- `datetime.combine(d, datetime.min.time(), tzinfo=timezone.utc)`:
midnight (start of day) of day `d`, as a UTC instant. -/
def startOfDay (d : Int) : Int := d * usPerDay

/-- `datetime.combine(d, datetime.max.time(), tzinfo=timezone.utc)`:
`23:59:59.999999` (last microsecond) of day `d`, as a UTC instant. -/
def endOfDay (d : Int) : Int := d * usPerDay + (usPerDay - 1)

/-- Python `len(s.strip()) == 0` (also covering the falsiness of the empty
string): the string has no non-whitespace character. -/
def isBlank (s : String) : Bool :=
  s.toList.all (fun c => c.isWhitespace)

/-- models.Policy (the columns the claims logic reads). -/
structure Policy where
  id : Nat
  policyholderId : Nat
  policyType : PolicyType
  policyNumber : String
  startDate : Int
  endDate : Int
  coverageAmount : Int
  premium : Int
  deductible : Int
  status : PolicyStatus
  updatedAt : Int
  deriving DecidableEq, Repr

/-- models.Claim (the columns the claims logic reads or writes). -/
structure Claim where
  id : Nat
  policyId : Nat
  claimNumber : String
  incidentDate : PyDateTime
  description : String
  incidentDescription : String
  amountRequested : Int
  status : ClaimStatus
  filingDate : Int
  assignedAdjusterId : Option Nat
  settlementAmount : Option Int
  settlementDate : Option Int
  notes : List String
  updatedAt : Int
  deriving DecidableEq, Repr

/-- The persistent store visible to ClaimsService: the policyholders (only
their identity matters to the claims in scope), policies and claims tables. -/
structure Store where
  policyholders : List Nat
  policies : List Policy
  claims : List Claim
  deriving DecidableEq, Repr

/-- Every `raise` site reachable from the service methods in scope, one
constructor per distinct message. -/
inductive ServiceError where
  /-- claims_service.submit_claim: "Policy with ID ... not found" -/
  | policyNotFound
  /-- claims_service.submit_claim: "Policy ... is not active. Current status: ..." -/
  | policyNotActive (current : PolicyStatus)
  /-- models.Claim.validate_incident_date compares the incoming value with
  `datetime.now(timezone.utc)`; a naive value makes that comparison raise
  TypeError ("can't compare offset-naive and offset-aware datetimes"). -/
  | naiveAwareCompare
  /-- models.Claim.validate_incident_date: "Incident date cannot be in the future" -/
  | incidentInFuture
  /-- models.Claim.validate_amounts: "amount_requested cannot be negative" -/
  | negativeAmountRequested
  /-- claims_service.submit_claim: "Claim incident date ... must be within policy period ..." -/
  | incidentOutOfRange
  /-- claims_service.submit_claim: "Claim amount must be positive" -/
  | nonPositiveAmount
  /-- claims_service.submit_claim: "Claim amount ... exceeds policy coverage ..." -/
  | amountExceedsCoverage
  /-- claims_service.submit_claim: "Description is required" -/
  | blankDescription
  /-- claims_service.submit_claim: "Incident description is required" -/
  | blankIncidentDescription
  /-- schemas.ClaimCreate.validate_amount: "Amount requested must be positive" -/
  | schemaNonPositiveAmount
  /-- schemas.ClaimCreate fields: description min_length 1, incident_description length 1..1000 -/
  | schemaBadLength
  /-- claims_service.create_policy: "Policyholder not found" -/
  | policyholderNotFound
  /-- models.Policy.validate_dates and claims_service.create_policy:
  "End date must be after start date" -/
  | endDateNotAfterStartDate
  /-- models.Policy.validate_amounts: "... cannot be negative" -/
  | negativePolicyAmount
  /-- claims_service.create_policy: "Coverage amount and premium must be positive" -/
  | nonPositiveCoverageOrPremium
  /-- claims_service.create_policy: "Deductible cannot be negative" -/
  | negativeDeductible
  /-- claims_service.process_claim: "Adjuster ID required for claims under review" -/
  | adjusterRequired
  /-- claims_service.process_claim: "Cannot settle unapproved claim" -/
  | settleUnapproved
  /-- claims_service.delete_claim: "Can only delete rejected or settled claims" -/
  | cannotDeleteClaim
  deriving DecidableEq, Repr

/-- The error taxonomy of spec section 7: ValidationError, NotFoundError,
InvalidStateError, InvalidTransitionError, OutOfRangeError. -/
inductive SpecErrorKind where
  | validation
  | notFound
  | invalidState (current : PolicyStatus)
  | invalidTransition
  | outOfRange
  deriving DecidableEq, Repr

/-- Classification of each raise site into the spec's error kinds. -/
def classify : ServiceError → SpecErrorKind
  | .policyNotFound => .notFound
  | .policyholderNotFound => .notFound
  | .policyNotActive st => .invalidState st
  | .incidentOutOfRange => .outOfRange
  | .settleUnapproved => .invalidTransition
  | _ => .validation

/-- `select(Policy).where(Policy.id == policy_id)` + `scalar_one_or_none()`. -/
def findPolicy (s : Store) (pid : Nat) : Option Policy :=
  s.policies.find? (fun p => p.id == pid)

/-- `select(Claim).where(Claim.id == claim_id)` + `scalar_one_or_none()`
(claims_service.get_claim). -/
def findClaim (s : Store) (cid : Nat) : Option Claim :=
  s.claims.find? (fun c => c.id == cid)

/-- Persisting a mutated claim row (`claims_repo.update` + commit). -/
def updateClaimInStore (s : Store) (c : Claim) : Store :=
  { s with claims := s.claims.map (fun x => if x.id == c.id then c else x) }

/-- schemas.ClaimCreate: the submit-claim request payload. -/
structure ClaimCreate where
  policyId : Nat
  incidentDate : PyDateTime
  description : String
  incidentDescription : String
  amountRequested : Int
  deriving DecidableEq, Repr

/-- The claim row the `Claim(...)` constructor call in submit_claim builds:
status SUBMITTED, filing date the current UTC time, no adjuster, no
settlement fields, empty notes. -/
def newClaimRow (newId : Nat) (d : ClaimCreate) (now : Int) : Claim :=
  { id := newId
    policyId := d.policyId
    claimNumber := "CLM-" ++ toString newId
    incidentDate := d.incidentDate
    description := d.description
    incidentDescription := d.incidentDescription
    amountRequested := d.amountRequested
    status := ClaimStatus.SUBMITTED
    filingDate := now
    assignedAdjusterId := none
    settlementAmount := none
    settlementDate := none
    notes := []
    updatedAt := now }

/-- Constructing `Claim(...)` in submit_claim.  SQLAlchemy `@validates`
hooks fire as the constructor assigns each keyword argument, in the order
the arguments are written: `incident_date` (validate_incident_date) before
`amount_requested` (validate_amounts).  Comparing a naive `incident_date`
with the aware `datetime.now(timezone.utc)` raises TypeError. -/
def mkClaim (newId : Nat) (d : ClaimCreate) (now : Int) : Except ServiceError Claim :=
  if d.incidentDate.aware = false then .error .naiveAwareCompare
  else if d.incidentDate.micros > now then .error .incidentInFuture
  else if d.amountRequested < 0 then .error .negativeAmountRequested
  else .ok (newClaimRow newId d now)

/-- claims_service.ClaimsService.submit_claim.  `now` is the current UTC
instant, `newId` the freshly drawn uuid4.  On any raise the session is
rolled back, so the store comes back unchanged. -/
def submitClaim (s : Store) (d : ClaimCreate) (now : Int) (newId : Nat) :
    Store × Except ServiceError Claim :=
  match findPolicy s d.policyId with
  | none => (s, .error .policyNotFound)
  | some policy =>
    if policy.status ≠ PolicyStatus.ACTIVE then
      (s, .error (.policyNotActive policy.status))
    else
      match mkClaim newId d now with
      | .error e => (s, .error e)
      | .ok c0 =>
        let c :=
          if c0.incidentDate.aware = false then
            { c0 with incidentDate := { c0.incidentDate with aware := true } }
          else c0
        let policyStart := startOfDay policy.startDate
        let policyEnd := endOfDay policy.endDate
        if ¬ (policyStart ≤ c.incidentDate.micros ∧ c.incidentDate.micros ≤ policyEnd) then
          (s, .error .incidentOutOfRange)
        else if c.amountRequested ≤ 0 then
          (s, .error .nonPositiveAmount)
        else if c.amountRequested > policy.coverageAmount then
          (s, .error .amountExceedsCoverage)
        else if isBlank c.description then
          (s, .error .blankDescription)
        else if isBlank c.incidentDescription then
          (s, .error .blankIncidentDescription)
        else
          ({ s with claims := s.claims ++ [c] }, .ok c)

/-- schemas.ClaimCreate.validate_incident_date: an aware value is converted
to UTC (same instant), a naive one is UTC-localised (same `micros`, now
aware); the result is rejected if it lies in the future. -/
def validateIncidentDate (v : PyDateTime) (now : Int) : Except ServiceError PyDateTime :=
  let inc : PyDateTime := if v.aware then v else { v with aware := true }
  if inc.micros > now then .error .incidentInFuture
  else .ok inc

/-- Pydantic validation of the ClaimCreate payload, fields in declaration
order: incident_date validator, description min_length 1,
incident_description length 1..1000, amount_requested validator. -/
def validateClaimCreate (d : ClaimCreate) (now : Int) : Except ServiceError ClaimCreate :=
  match validateIncidentDate d.incidentDate now with
  | .error e => .error e
  | .ok inc =>
    if d.description.length < 1 then .error .schemaBadLength
    else if d.incidentDescription.length < 1 ∨ d.incidentDescription.length > 1000 then
      .error .schemaBadLength
    else if d.amountRequested ≤ 0 then .error .schemaNonPositiveAmount
    else .ok { d with incidentDate := inc }

/-- The POST /claims/ pipeline: parse/validate the payload as
schemas.ClaimCreate, then call the service. -/
def apiSubmitClaim (s : Store) (d : ClaimCreate) (now : Int) (newId : Nat) :
    Store × Except ServiceError Claim :=
  match validateClaimCreate d now with
  | .error e => (s, .error e)
  | .ok d2 => submitClaim s d2 now newId

/-- A payload that passed schemas.ClaimCreate validation at some instant no
later than `now`: amount strictly positive, descriptions within the length
bounds, incident date timezone-aware and not in the future. -/
def ClaimCreateValid (d : ClaimCreate) (now : Int) : Prop :=
  0 < d.amountRequested ∧
  d.incidentDate.aware = true ∧
  d.incidentDate.micros ≤ now ∧
  1 ≤ d.description.length ∧
  1 ≤ d.incidentDescription.length ∧ d.incidentDescription.length ≤ 1000

instance (d : ClaimCreate) (now : Int) : Decidable (ClaimCreateValid d now) := by
  unfold ClaimCreateValid; infer_instance

/-- The submission precondition chain exactly as claim C1 words it: the
checks in the order (1) policy exists, (2) policy ACTIVE, (3) UTC-normalised
incident instant within start-of-day..end-of-day of the policy period,
(4) amount positive, (5) amount within coverage, (6) descriptions
non-blank; the result is the first failing check's error kind, or `none`
when every check passes. -/
def specSubmitError (s : Store) (d : ClaimCreate) : Option SpecErrorKind :=
  match findPolicy s d.policyId with
  | none => some .notFound
  | some policy =>
    if policy.status ≠ PolicyStatus.ACTIVE then some (.invalidState policy.status)
    else
      -- normalised to UTC, the incident instant is `micros` whether the
      -- payload value was aware or naive
      if ¬ (startOfDay policy.startDate ≤ d.incidentDate.micros ∧
            d.incidentDate.micros ≤ endOfDay policy.endDate) then some .outOfRange
      else if ¬ (0 < d.amountRequested) then some .validation
      else if ¬ (d.amountRequested ≤ policy.coverageAmount) then some .validation
      else if isBlank d.description ∨ isBlank d.incidentDescription then some .validation
      else none

/-- schemas.PolicyCreate: the create-policy request payload.  Its `status`
field defaults to PENDING in the schema. -/
structure PolicyCreate where
  policyholderId : Nat
  policyType : PolicyType
  startDate : Int
  endDate : Int
  coverageAmount : Int
  premium : Int
  deductible : Int
  status : PolicyStatus := PolicyStatus.PENDING
  deriving DecidableEq, Repr

/-- Constructing `Policy(...)` in create_policy.  The `@validates` hooks
fire in keyword-argument order: `end_date` (validate_dates, comparing with
the already-assigned `start_date`), then `coverage_amount`, `premium`,
`deductible` (validate_amounts, each rejecting a negative value). -/
def mkPolicy (newId : Nat) (d : PolicyCreate) (st : PolicyStatus) (now : Int) :
    Except ServiceError Policy :=
  if d.endDate ≤ d.startDate then .error .endDateNotAfterStartDate
  else if d.coverageAmount < 0 then .error .negativePolicyAmount
  else if d.premium < 0 then .error .negativePolicyAmount
  else if d.deductible < 0 then .error .negativePolicyAmount
  else .ok
    { id := newId
      policyholderId := d.policyholderId
      policyType := d.policyType
      policyNumber := "POL-" ++ toString newId
      startDate := d.startDate
      endDate := d.endDate
      coverageAmount := d.coverageAmount
      premium := d.premium
      deductible := d.deductible
      status := st
      updatedAt := now }

/-- claims_service.get_policyholder: select by id, `scalar_one_or_none()`. -/
def findPolicyholder (s : Store) (phid : Nat) : Option Nat :=
  s.policyholders.find? (fun x => x == phid)

/-- claims_service.ClaimsService.create_policy.  The status keyword passed
to the constructor is the literal `PolicyStatus.ACTIVE`; the payload's
`status` field is never read. -/
def createPolicy (s : Store) (d : PolicyCreate) (now : Int) (newId : Nat) :
    Store × Except ServiceError Policy :=
  match findPolicyholder s d.policyholderId with
  | none => (s, .error .policyholderNotFound)
  | some _ =>
    match mkPolicy newId d PolicyStatus.ACTIVE now with
    | .error e => (s, .error e)
    | .ok p =>
      if p.endDate ≤ p.startDate then (s, .error .endDateNotAfterStartDate)
      else if p.coverageAmount ≤ 0 ∨ p.premium ≤ 0 then
        (s, .error .nonPositiveCoverageOrPremium)
      else if p.deductible < 0 then (s, .error .negativeDeductible)
      else ({ s with policies := s.policies ++ [p] }, .ok p)

/-- schemas.ClaimProcess: the process-claim request payload. -/
structure ClaimProcess where
  newStatus : ClaimStatus
  adjusterId : Option Nat := none
  notes : Option String := none
  settlementAmount : Option Int := none
  deriving DecidableEq, Repr

/-- claims_service.ClaimsService.process_claim.  Returns `.ok none` when no
claim with that id exists (the service returns None).  The UNDER_REVIEW
branch assigns the adjuster before the SETTLED guard runs; on success the
status and `updated_at` are always written, and `settlement_date` is
stamped exactly when the target status is SETTLED. -/
def processClaim (s : Store) (cid : Nat) (pd : ClaimProcess) (now : Int) :
    Store × Except ServiceError (Option Claim) :=
  match findClaim s cid with
  | none => (s, .ok none)
  | some claim0 =>
    if pd.newStatus = ClaimStatus.UNDER_REVIEW ∧ pd.adjusterId = none then
      (s, .error .adjusterRequired)
    else
      let claim1 :=
        if pd.newStatus = ClaimStatus.UNDER_REVIEW then
          { claim0 with assignedAdjusterId := pd.adjusterId }
        else claim0
      if pd.newStatus = ClaimStatus.SETTLED ∧ claim0.status ≠ ClaimStatus.APPROVED then
        (s, .error .settleUnapproved)
      else
        let claim2 := { claim1 with status := pd.newStatus, updatedAt := now }
        let claim3 :=
          if pd.newStatus = ClaimStatus.SETTLED then
            { claim2 with settlementDate := some now }
          else claim2
        (updateClaimInStore s claim3, .ok (some claim3))

/-- claims_service.ClaimsService.delete_claim.  Returns `.ok false` when
the claim does not exist; raises unless the claim is REJECTED or SETTLED;
otherwise removes the row and returns `.ok true`. -/
def deleteClaim (s : Store) (cid : Nat) : Store × Except ServiceError Bool :=
  match findClaim s cid with
  | none => (s, .ok false)
  | some claim =>
    if claim.status ≠ ClaimStatus.REJECTED ∧ claim.status ≠ ClaimStatus.SETTLED then
      (s, .error .cannotDeleteClaim)
    else
      ({ s with claims := s.claims.filter (fun c => c.id != cid) }, .ok true)

/-! Concrete fixtures used by the witness theorems. -/

/-- A concrete active policy: one-year period, coverage 50000. -/
def exPolicy : Policy :=
  { id := 10
    policyholderId := 1
    policyType := PolicyType.AUTO
    policyNumber := "POL-10"
    startDate := 0
    endDate := 365
    coverageAmount := 50000
    premium := 1200
    deductible := 500
    status := PolicyStatus.ACTIVE
    updatedAt := 0 }

/-- A concrete submitted claim against `exPolicy`. -/
def exClaim : Claim :=
  { id := 20
    policyId := 10
    claimNumber := "CLM-20"
    incidentDate := { micros := 100 * usPerDay, aware := true }
    description := "rear-end collision"
    incidentDescription := "hit while parked"
    amountRequested := 25000
    status := ClaimStatus.SUBMITTED
    filingDate := 101 * usPerDay
    assignedAdjusterId := none
    settlementAmount := some 300
    settlementDate := none
    notes := ["first note"]
    updatedAt := 101 * usPerDay }

/-- A concrete store holding the fixture policy and claim. -/
def exStore : Store :=
  { policyholders := [1]
    policies := [exPolicy]
    claims := [exClaim] }

/-- A concrete valid submit-claim payload against `exPolicy`. -/
def exClaimCreate : ClaimCreate :=
  { policyId := 10
    incidentDate := { micros := 50 * usPerDay, aware := true }
    description := "storm damage"
    incidentDescription := "roof torn off"
    amountRequested := 400
    }

/-- A concrete instant later than everything in the fixtures. -/
def exNow : Int := 400 * usPerDay

/-- The fixture claim in the terminal SETTLED status. -/
def exSettledClaim : Claim :=
  { exClaim with status := ClaimStatus.SETTLED,
                 settlementDate := some (150 * usPerDay) }

/-- A store whose only claim is already SETTLED. -/
def exStore2 : Store :=
  { policyholders := [1]
    policies := [exPolicy]
    claims := [exSettledClaim] }

/-- A process payload that also supplies notes and a settlement amount. -/
def exProcessPayload : ClaimProcess :=
  { newStatus := ClaimStatus.UNDER_REVIEW
    adjusterId := some 7
    notes := some "call the garage"
    settlementAmount := some 999 }

/-- The settled fixture claim after a process request back to REJECTED. -/
def exRejectedResult : Claim :=
  { exSettledClaim with status := ClaimStatus.REJECTED, updatedAt := exNow }

/-- The fixture claim after processing with `exProcessPayload`. -/
def exReviewedResult : Claim :=
  { exClaim with
    assignedAdjusterId := some 7
    status := ClaimStatus.UNDER_REVIEW
    updatedAt := exNow }

/-- A concrete valid create-policy payload (status left at its PENDING default). -/
def exPolicyCreate : PolicyCreate :=
  { policyholderId := 1
    policyType := PolicyType.HEALTH
    startDate := 10
    endDate := 700
    coverageAmount := 80000
    premium := 2000
    deductible := 100 }

/-- The fixture submit payload asking for exactly the policy coverage. -/
def exBoundaryCreate : ClaimCreate :=
  { exClaimCreate with amountRequested := 50000 }

/-- The fixture create-policy payload with its premium zeroed out. -/
def exZeroPremiumCreate : PolicyCreate :=
  { exPolicyCreate with premium := 0 }

/-- The policy create_policy builds from `exPolicyCreate` under id 11. -/
def exCreatedPolicy : Policy :=
  { id := 11
    policyholderId := 1
    policyType := PolicyType.HEALTH
    policyNumber := "POL-11"
    startDate := 10
    endDate := 700
    coverageAmount := 80000
    premium := 2000
    deductible := 100
    status := PolicyStatus.ACTIVE
    updatedAt := exNow }

/-- The error kind a submit-claim outcome carries, `none` on success. -/
def resultKind (r : Except ServiceError Claim) : Option SpecErrorKind :=
  match r with
  | .error e => some (classify e)
  | .ok _ => none

/-! Theorems. -/

/-- C2: for every claim and every process request targeting SETTLED, a
claim not currently APPROVED makes the operation fail with
InvalidTransitionError leaving the store unchanged, while an APPROVED
claim is moved to SETTLED with `settlement_date` (and `updated_at`)
stamped with the current UTC time. -/
theorem processClaim_settle_only_from_approved
    (s : Store) (cid : Nat) (pd : ClaimProcess) (now : Int) (c : Claim)
    (hc : findClaim s cid = some c) (ht : pd.newStatus = ClaimStatus.SETTLED) :
    (c.status ≠ ClaimStatus.APPROVED →
      processClaim s cid pd now = (s, .error .settleUnapproved) ∧
      classify ServiceError.settleUnapproved = SpecErrorKind.invalidTransition)
    ∧ (c.status = ClaimStatus.APPROVED →
      processClaim s cid pd now =
        (updateClaimInStore s
          { c with status := ClaimStatus.SETTLED, updatedAt := now,
                   settlementDate := some now },
         .ok (some { c with status := ClaimStatus.SETTLED, updatedAt := now,
                            settlementDate := some now }))) := by
  unfold processClaim
  rw [hc]
  constructor
  · intro hna
    exact ⟨by simp [ht, hna], rfl⟩
  · intro hap
    simp [ht, hap]

theorem processClaim_settle_only_from_approved_witness :
    (findClaim exStore 20 = some exClaim ∧
      ClaimProcess.newStatus { newStatus := ClaimStatus.SETTLED } = ClaimStatus.SETTLED) ∧
    (exClaim.status ≠ ClaimStatus.APPROVED →
      processClaim exStore 20 { newStatus := ClaimStatus.SETTLED } exNow =
        (exStore, .error .settleUnapproved) ∧
      classify ServiceError.settleUnapproved = SpecErrorKind.invalidTransition) :=
  ⟨⟨by decide, by decide⟩,
   (processClaim_settle_only_from_approved exStore 20 { newStatus := ClaimStatus.SETTLED }
      exNow exClaim (by decide) (by decide)).1⟩

/-- C5: for every existing claim and every process request targeting
UNDER_REVIEW, a request without an adjuster identity fails with
ValidationError leaving the store unchanged, while a request carrying an
adjuster identity succeeds, moves the claim to UNDER_REVIEW and records
the adjuster in `assigned_adjuster_id`. -/
theorem processClaim_under_review_requires_adjuster
    (s : Store) (cid : Nat) (pd : ClaimProcess) (now : Int) (c : Claim)
    (hc : findClaim s cid = some c) (ht : pd.newStatus = ClaimStatus.UNDER_REVIEW) :
    (pd.adjusterId = none →
      processClaim s cid pd now = (s, .error .adjusterRequired) ∧
      classify ServiceError.adjusterRequired = SpecErrorKind.validation)
    ∧ (∀ a, pd.adjusterId = some a →
      processClaim s cid pd now =
        (updateClaimInStore s
          { c with assignedAdjusterId := some a,
                   status := ClaimStatus.UNDER_REVIEW, updatedAt := now },
         .ok (some { c with assignedAdjusterId := some a,
                            status := ClaimStatus.UNDER_REVIEW, updatedAt := now }))) := by
  unfold processClaim
  rw [hc]
  constructor
  · intro hno
    exact ⟨by simp [ht, hno], rfl⟩
  · intro a ha
    simp [ht, ha]

theorem processClaim_under_review_requires_adjuster_witness :
    (findClaim exStore 20 = some exClaim ∧
      ClaimProcess.newStatus { newStatus := ClaimStatus.UNDER_REVIEW } =
        ClaimStatus.UNDER_REVIEW ∧
      ClaimProcess.adjusterId { newStatus := ClaimStatus.UNDER_REVIEW } = none) ∧
    (processClaim exStore 20 { newStatus := ClaimStatus.UNDER_REVIEW } exNow =
      (exStore, .error .adjusterRequired) ∧
     classify ServiceError.adjusterRequired = SpecErrorKind.validation) :=
  ⟨⟨by decide, by decide, by decide⟩,
   (processClaim_under_review_requires_adjuster exStore 20
      { newStatus := ClaimStatus.UNDER_REVIEW } exNow exClaim (by decide) (by decide)).1
     (by decide)⟩

/-- C7: for every existing claim, a process request whose target status is
SUBMITTED, ADDITIONAL_INFO_REQUIRED, APPROVED or REJECTED succeeds from
any current status whatsoever (terminal REJECTED and SETTLED included),
writes the requested status, and refreshes the `updated_at` timestamp. -/
theorem processClaim_unguarded_targets_always_succeed
    (s : Store) (cid : Nat) (pd : ClaimProcess) (now : Int) (c : Claim)
    (hc : findClaim s cid = some c)
    (ht : pd.newStatus = ClaimStatus.SUBMITTED ∨
          pd.newStatus = ClaimStatus.ADDITIONAL_INFO_REQUIRED ∨
          pd.newStatus = ClaimStatus.APPROVED ∨
          pd.newStatus = ClaimStatus.REJECTED) :
    processClaim s cid pd now =
      (updateClaimInStore s { c with status := pd.newStatus, updatedAt := now },
       .ok (some { c with status := pd.newStatus, updatedAt := now })) := by
  unfold processClaim
  rw [hc]
  rcases ht with h | h | h | h <;> simp [h]

theorem processClaim_unguarded_targets_always_succeed_witness :
    (findClaim exStore2 20 = some exSettledClaim ∧
      ClaimProcess.newStatus { newStatus := ClaimStatus.REJECTED } =
        ClaimStatus.REJECTED) ∧
    processClaim exStore2 20 { newStatus := ClaimStatus.REJECTED } exNow =
      (updateClaimInStore exStore2 exRejectedResult, .ok (some exRejectedResult)) :=
  ⟨⟨by decide, by decide⟩,
   processClaim_unguarded_targets_always_succeed exStore2 20
     { newStatus := ClaimStatus.REJECTED } exNow exSettledClaim (by decide)
     (Or.inr (Or.inr (Or.inr (by decide))))⟩

/-- C10: process_claim never touches `settlement_amount` or `notes`: for
every existing claim, whenever the operation returns an updated claim, its
settlement amount and notes are those of the stored claim, whatever the
request payload carried in its own `settlement_amount` and `notes` fields
(the SETTLED transition included). -/
theorem processClaim_preserves_settlement_amount_and_notes
    (s : Store) (cid : Nat) (pd : ClaimProcess) (now : Int) (c c2 : Claim)
    (hc : findClaim s cid = some c)
    (hr : (processClaim s cid pd now).2 = .ok (some c2)) :
    c2.settlementAmount = c.settlementAmount ∧ c2.notes = c.notes := by
  unfold processClaim at hr
  rw [hc] at hr
  by_cases h3 : pd.newStatus = ClaimStatus.SETTLED <;>
    by_cases h4 : pd.newStatus = ClaimStatus.UNDER_REVIEW <;>
      by_cases h5 : pd.adjusterId = none <;>
        by_cases h6 : c.status = ClaimStatus.APPROVED <;>
          simp [h3, h4, h5, h6] at hr <;>
            simp [← hr]

theorem processClaim_preserves_settlement_amount_and_notes_witness :
    (findClaim exStore 20 = some exClaim ∧
      (processClaim exStore 20 exProcessPayload exNow).2 = .ok (some exReviewedResult)) ∧
    exReviewedResult.settlementAmount = exClaim.settlementAmount ∧
    exReviewedResult.notes = exClaim.notes :=
  ⟨⟨by decide, by rfl⟩,
   processClaim_preserves_settlement_amount_and_notes exStore 20 exProcessPayload exNow
     exClaim exReviewedResult (by decide) (by rfl)⟩

/-- C8: for every existing claim, delete_claim succeeds exactly when the
claim is REJECTED or SETTLED, removing the row; in every other status it
fails with an error and the store (the claim included) is unchanged. -/
theorem deleteClaim_only_terminal_statuses
    (s : Store) (cid : Nat) (c : Claim) (hc : findClaim s cid = some c) :
    ((c.status = ClaimStatus.REJECTED ∨ c.status = ClaimStatus.SETTLED) →
      deleteClaim s cid =
        ({ s with claims := s.claims.filter (fun x => x.id != cid) }, .ok true))
    ∧ (c.status ≠ ClaimStatus.REJECTED ∧ c.status ≠ ClaimStatus.SETTLED →
      deleteClaim s cid = (s, .error .cannotDeleteClaim)) := by
  unfold deleteClaim
  rw [hc]
  constructor
  · intro h
    rcases h with h | h <;> simp [h]
  · intro h
    simp [h.1, h.2]

theorem deleteClaim_only_terminal_statuses_witness :
    (findClaim exStore 20 = some exClaim ∧
      exClaim.status ≠ ClaimStatus.REJECTED ∧ exClaim.status ≠ ClaimStatus.SETTLED) ∧
    deleteClaim exStore 20 = (exStore, .error .cannotDeleteClaim) :=
  ⟨⟨by decide, by decide, by decide⟩,
   (deleteClaim_only_terminal_statuses exStore 20 exClaim (by decide)).2
     ⟨by decide, by decide⟩⟩

/-- C6: policy validation enforces start_date < end_date, coverage > 0,
premium > 0 and deductible ≥ 0 — for an existing policyholder, a payload
with end_date ≤ start_date fails with ValidationError, one with end_date >
start_date (and positive coverage and premium, non-negative deductible)
succeeds, one with coverage or premium equal to zero fails, and one with a
negative deductible fails. -/
theorem createPolicy_entity_validation
    (s : Store) (d : PolicyCreate) (now : Int) (newId : Nat) (phx : Nat)
    (hph : findPolicyholder s d.policyholderId = some phx) :
    (d.endDate ≤ d.startDate →
      createPolicy s d now newId = (s, .error .endDateNotAfterStartDate) ∧
      classify ServiceError.endDateNotAfterStartDate = SpecErrorKind.validation)
    ∧ (d.startDate < d.endDate → 0 < d.coverageAmount → 0 < d.premium →
       0 ≤ d.deductible →
      ∃ p, createPolicy s d now newId = ({ s with policies := s.policies ++ [p] }, .ok p))
    ∧ ((d.coverageAmount = 0 ∨ d.premium = 0) →
      (createPolicy s d now newId).2.isOk = false)
    ∧ (d.deductible < 0 → (createPolicy s d now newId).2.isOk = false) := by
  unfold createPolicy mkPolicy
  rw [hph]
  refine ⟨fun hle => ?_, fun hlt hcov hprem hded => ?_, fun hzero => ?_, fun hded => ?_⟩
  · exact ⟨by simp [hle], rfl⟩
  · have h1 : ¬ (d.endDate ≤ d.startDate) := by omega
    have h2 : ¬ (d.coverageAmount < 0) := by omega
    have h3 : ¬ (d.premium < 0) := by omega
    have h4 : ¬ (d.deductible < 0) := by omega
    have h5 : ¬ (d.coverageAmount ≤ 0) := by omega
    have h6 : ¬ (d.premium ≤ 0) := by omega
    refine ⟨{ id := newId
              policyholderId := d.policyholderId
              policyType := d.policyType
              policyNumber := "POL-" ++ toString newId
              startDate := d.startDate
              endDate := d.endDate
              coverageAmount := d.coverageAmount
              premium := d.premium
              deductible := d.deductible
              status := PolicyStatus.ACTIVE
              updatedAt := now }, ?_⟩
    simp [h1, h2, h3, h4, h5, h6]
  · have h5 : d.coverageAmount ≤ 0 ∨ d.premium ≤ 0 := by
      rcases hzero with h | h <;> omega
    by_cases h1 : d.endDate ≤ d.startDate <;>
      by_cases h2 : d.coverageAmount < 0 <;>
        by_cases h3 : d.premium < 0 <;>
          by_cases h4 : d.deductible < 0 <;>
            simp [h1, h2, h3, h4, h5, Except.isOk, Except.toBool]
  · by_cases h1 : d.endDate ≤ d.startDate <;>
      by_cases h2 : d.coverageAmount < 0 <;>
        by_cases h3 : d.premium < 0 <;>
          simp [h1, h2, h3, hded, Except.isOk, Except.toBool]

theorem createPolicy_entity_validation_witness :
    (findPolicyholder exStore exZeroPremiumCreate.policyholderId = some 1 ∧
      (exZeroPremiumCreate.coverageAmount = 0 ∨ exZeroPremiumCreate.premium = 0)) ∧
    (createPolicy exStore exZeroPremiumCreate exNow 11).2.isOk = false ∧
    (exPolicyCreate.startDate < exPolicyCreate.endDate → 0 < exPolicyCreate.coverageAmount →
     0 < exPolicyCreate.premium → 0 ≤ exPolicyCreate.deductible →
      ∃ p, createPolicy exStore exPolicyCreate exNow 11 =
        ({ exStore with policies := exStore.policies ++ [p] }, .ok p)) :=
  ⟨⟨by decide, Or.inr (by decide)⟩,
   (createPolicy_entity_validation exStore exZeroPremiumCreate exNow 11 1
     (by decide)).2.2.1 (Or.inr (by decide)),
   (createPolicy_entity_validation exStore exPolicyCreate exNow 11 1 (by decide)).2.1⟩

/-- C9: create_policy hands the literal ACTIVE status to the Policy
constructor and never reads the payload's own `status` field (whose schema
default is PENDING): the outcome is identical for every payload status,
and every successfully created policy has status ACTIVE. -/
theorem createPolicy_ignores_payload_status
    (s : Store) (d : PolicyCreate) (now : Int) (newId : Nat) :
    (∀ st : PolicyStatus,
      createPolicy s { d with status := st } now newId = createPolicy s d now newId)
    ∧ (∀ p, (createPolicy s d now newId).2 = .ok p → p.status = PolicyStatus.ACTIVE) := by
  constructor
  · intro st
    rfl
  · intro p hp
    unfold createPolicy mkPolicy at hp
    cases h0 : findPolicyholder s d.policyholderId with
    | none => rw [h0] at hp; simp at hp
    | some phx =>
      rw [h0] at hp
      by_cases h1 : d.endDate ≤ d.startDate
      · simp [h1] at hp
      · by_cases h2 : d.coverageAmount < 0
        · simp [h1, h2] at hp
        · by_cases h3 : d.premium < 0
          · simp [h1, h2, h3] at hp
          · by_cases h4 : d.deductible < 0
            · simp [h1, h2, h3, h4] at hp
            · by_cases h5 : d.coverageAmount ≤ 0 ∨ d.premium ≤ 0
              · simp [h1, h2, h3, h4, h5] at hp
              · simp [h1, h2, h3, h4, h5] at hp
                rw [← hp]

theorem createPolicy_ignores_payload_status_witness :
    createPolicy exStore { exPolicyCreate with status := PolicyStatus.PENDING } exNow 11 =
      createPolicy exStore exPolicyCreate exNow 11 ∧
    ((createPolicy exStore exPolicyCreate exNow 11).2 = .ok exCreatedPolicy →
      exCreatedPolicy.status = PolicyStatus.ACTIVE) :=
  ⟨(createPolicy_ignores_payload_status exStore exPolicyCreate exNow 11).1
     PolicyStatus.PENDING,
   (createPolicy_ignores_payload_status exStore exPolicyCreate exNow 11).2
     exCreatedPolicy⟩

/-- C1: for every claim submission whose payload passed ClaimCreate schema
validation, the service checks the preconditions in the claimed order —
(1) policy exists (NotFoundError), (2) policy ACTIVE (InvalidStateError
naming the current status), (3) UTC-normalised incident instant within
start-of-day..end-of-day of the policy period (OutOfRangeError),
(4) amount positive (ValidationError), (5) amount within coverage
(ValidationError), (6) descriptions non-blank (ValidationError) — the
first failing check determines the resulting error kind, and on any
failure the store is unchanged: no claim is created or persisted. -/
theorem submitClaim_checks_in_claimed_order
    (s : Store) (d : ClaimCreate) (now : Int) (newId : Nat)
    (hv : ClaimCreateValid d now) :
    resultKind (submitClaim s d now newId).2 = specSubmitError s d
    ∧ ((submitClaim s d now newId).2.isOk = false →
        (submitClaim s d now newId).1 = s) := by
  obtain ⟨ha, haw, hn, hd1, hd2, hd3⟩ := hv
  have hng : ¬ (d.incidentDate.micros > now) := by omega
  have hna : ¬ (d.amountRequested < 0) := by omega
  have hne0 : ¬ (d.amountRequested ≤ 0) := by omega
  unfold submitClaim specSubmitError mkClaim resultKind newClaimRow
  cases hfp : findPolicy s d.policyId with
  | none => exact ⟨rfl, fun _ => rfl⟩
  | some policy =>
    by_cases hst : policy.status = PolicyStatus.ACTIVE
    case neg => exact ⟨by simp [hst, classify], by intro; simp [hst]⟩
    case pos =>
      by_cases hr : startOfDay policy.startDate ≤ d.incidentDate.micros ∧
          d.incidentDate.micros ≤ endOfDay policy.endDate
      · by_cases hcv : d.amountRequested ≤ policy.coverageAmount
        · have hngt : ¬ (policy.coverageAmount < d.amountRequested) := by omega
          by_cases hbd : isBlank d.description
          · exact ⟨by simp [hst, haw, hng, hna, hne0, ha, hr, hcv, hngt, hbd, classify],
              by intro; simp [hst, haw, hng, hna, hne0, hr, hngt, hbd]⟩
          · by_cases hbi : isBlank d.incidentDescription
            · exact ⟨by simp [hst, haw, hng, hna, hne0, ha, hr, hcv, hngt, hbd, hbi, classify],
                by intro; simp [hst, haw, hng, hna, hne0, hr, hngt, hbd, hbi]⟩
            · constructor
              · simp [hst, haw, hng, hna, hne0, ha, hr, hcv, hngt, hbd, hbi]
              · intro hko
                simp [hst, haw, hng, hna, hne0, hr, hngt, hbd, hbi,
                  Except.isOk, Except.toBool] at hko
        · have hgt : policy.coverageAmount < d.amountRequested := by omega
          exact ⟨by simp [hst, haw, hng, hna, hne0, ha, hr, hcv, hgt, classify],
            by intro; simp [hst, haw, hng, hna, hne0, hr, hgt]⟩
      · exact ⟨by simp [hst, haw, hng, hna, hne0, ha, hr, classify],
          by intro; simp [hst, haw, hng, hna, hne0, hr]⟩

theorem submitClaim_checks_in_claimed_order_witness :
    ClaimCreateValid exClaimCreate exNow ∧
    (resultKind (submitClaim exStore exClaimCreate exNow 99).2 =
        specSubmitError exStore exClaimCreate
      ∧ ((submitClaim exStore exClaimCreate exNow 99).2.isOk = false →
          (submitClaim exStore exClaimCreate exNow 99).1 = exStore)) :=
  ⟨by decide,
   submitClaim_checks_in_claimed_order exStore exClaimCreate exNow 99 (by decide)⟩

/-- C3: against an existing ACTIVE policy with positive coverage, for a
payload with a timezone-aware, in-period, non-future incident and
non-blank descriptions: an amount strictly above the coverage makes the
submission fail, while an amount exactly equal to the coverage makes it
succeed — the coverage bound is inclusive. -/
theorem submitClaim_coverage_bound_inclusive
    (s : Store) (d : ClaimCreate) (now : Int) (newId : Nat) (p : Policy)
    (hp : findPolicy s d.policyId = some p)
    (hact : p.status = PolicyStatus.ACTIVE)
    (hcov : 0 < p.coverageAmount)
    (haw : d.incidentDate.aware = true)
    (hn : d.incidentDate.micros ≤ now)
    (hr : startOfDay p.startDate ≤ d.incidentDate.micros ∧
          d.incidentDate.micros ≤ endOfDay p.endDate)
    (hbd : isBlank d.description = false)
    (hbi : isBlank d.incidentDescription = false) :
    (p.coverageAmount < d.amountRequested →
      submitClaim s d now newId = (s, .error .amountExceedsCoverage))
    ∧ (d.amountRequested = p.coverageAmount →
      submitClaim s d now newId =
        ({ s with claims := s.claims ++ [newClaimRow newId d now] },
         .ok (newClaimRow newId d now))) := by
  have hng : ¬ (d.incidentDate.micros > now) := by omega
  unfold submitClaim mkClaim
  rw [hp]
  constructor
  · intro hgt
    have hna : ¬ (d.amountRequested < 0) := by omega
    have hne0 : ¬ (d.amountRequested ≤ 0) := by omega
    simp [hact, haw, hng, hna, hne0, hr, hgt, newClaimRow]
  · intro heq
    have hna : ¬ (d.amountRequested < 0) := by omega
    have hne0 : ¬ (d.amountRequested ≤ 0) := by omega
    have hngt : ¬ (p.coverageAmount < d.amountRequested) := by omega
    simp [hact, haw, hng, hna, hne0, hr, hngt, hbd, hbi, newClaimRow]

theorem submitClaim_coverage_bound_inclusive_witness :
    (findPolicy exStore exBoundaryCreate.policyId = some exPolicy ∧
      exBoundaryCreate.amountRequested = exPolicy.coverageAmount) ∧
    submitClaim exStore exBoundaryCreate exNow 99 =
      ({ exStore with claims := exStore.claims ++ [newClaimRow 99 exBoundaryCreate exNow] },
       .ok (newClaimRow 99 exBoundaryCreate exNow)) :=
  ⟨⟨by decide, by decide⟩,
   (submitClaim_coverage_bound_inclusive exStore exBoundaryCreate exNow 99 exPolicy
      (by decide) (by decide) (by decide) (by decide) (by decide)
      ⟨by decide, by decide⟩ (by decide) (by decide)).2 (by decide)⟩

/-- C4: for submissions against an existing ACTIVE policy with the other
fields valid — a naive incident timestamp is normalised to UTC by the
schema validator (same clock reading, now aware); an incident exactly at
the end-of-day UTC instant of the policy's end date is accepted (shown
with the naive payload that normalisation turns into that instant), and an
incident one second past that instant is rejected with OutOfRangeError. -/
theorem submitClaim_end_of_day_boundary
    (s : Store) (d : ClaimCreate) (now : Int) (newId : Nat) (p : Policy)
    (hp : findPolicy s d.policyId = some p)
    (hact : p.status = PolicyStatus.ACTIVE)
    (hdates : p.startDate ≤ p.endDate)
    (hamt : 0 < d.amountRequested)
    (hcov : d.amountRequested ≤ p.coverageAmount)
    (hbd : isBlank d.description = false)
    (hbi : isBlank d.incidentDescription = false)
    (hdl : 1 ≤ d.description.length)
    (hil : 1 ≤ d.incidentDescription.length)
    (hiu : d.incidentDescription.length ≤ 1000)
    (hnow : endOfDay p.endDate + usPerSec ≤ now) :
    (∀ m : Int, m ≤ now →
      validateIncidentDate { micros := m, aware := false } now =
        .ok { micros := m, aware := true })
    ∧ (∃ c, apiSubmitClaim s
        { d with incidentDate := { micros := endOfDay p.endDate, aware := false } }
        now newId = ({ s with claims := s.claims ++ [c] }, .ok c))
    ∧ (apiSubmitClaim s
        { d with incidentDate := { micros := endOfDay p.endDate + usPerSec, aware := true } }
        now newId).2 = .error .incidentOutOfRange
    ∧ classify ServiceError.incidentOutOfRange = SpecErrorKind.outOfRange := by
  have husp : (0:Int) < usPerSec := by unfold usPerSec; omega
  have hend : endOfDay p.endDate ≤ now := by omega
  have hlow : startOfDay p.startDate ≤ endOfDay p.endDate := by
    unfold startOfDay endOfDay usPerDay
    omega
  refine ⟨fun m hm => ?_, ?_, ?_, rfl⟩
  · unfold validateIncidentDate
    have : ¬ (m > now) := by omega
    simp [this]
  · refine ⟨newClaimRow newId
      { d with incidentDate := { micros := endOfDay p.endDate, aware := true } } now, ?_⟩
    unfold apiSubmitClaim validateClaimCreate validateIncidentDate submitClaim mkClaim
    have h1 : ¬ (endOfDay p.endDate > now) := by omega
    have h2 : ¬ (d.description.length < 1) := by omega
    have h3 : ¬ (d.incidentDescription.length < 1 ∨ d.incidentDescription.length > 1000) := by
      omega
    have h4 : ¬ (d.amountRequested ≤ 0) := by omega
    have h5 : ¬ (d.amountRequested < 0) := by omega
    have h3a : d.incidentDescription.length ≠ 0 := by omega
    have h3b : ¬ (1000 < d.incidentDescription.length) := by omega
    have h2a : d.description.length ≠ 0 := by omega
    simp [hp, h1, h2, h2a, h3, h3a, h3b, h4, h5, hact, hlow, hbd, hbi, newClaimRow,
      le_refl, not_lt.mpr hcov]
  · unfold apiSubmitClaim validateClaimCreate validateIncidentDate submitClaim mkClaim
    have h1 : ¬ (endOfDay p.endDate + usPerSec > now) := by omega
    have h2 : ¬ (d.description.length < 1) := by omega
    have h3 : ¬ (d.incidentDescription.length < 1 ∨ d.incidentDescription.length > 1000) := by
      omega
    have h4 : ¬ (d.amountRequested ≤ 0) := by omega
    have h5 : ¬ (d.amountRequested < 0) := by omega
    have h6 : ¬ (endOfDay p.endDate + usPerSec ≤ endOfDay p.endDate) := by omega
    have h3a : d.incidentDescription.length ≠ 0 := by omega
    have h3b : ¬ (1000 < d.incidentDescription.length) := by omega
    have h2a : d.description.length ≠ 0 := by omega
    simp [hp, h1, h2, h2a, h3, h3a, h3b, h4, h5, hact, h6, newClaimRow]

theorem submitClaim_end_of_day_boundary_witness :
    (findPolicy exStore exClaimCreate.policyId = some exPolicy ∧
      endOfDay exPolicy.endDate + usPerSec ≤ exNow) ∧
    (∃ c, apiSubmitClaim exStore
        { exClaimCreate with
          incidentDate := { micros := endOfDay exPolicy.endDate, aware := false } }
        exNow 99 = ({ exStore with claims := exStore.claims ++ [c] }, .ok c)) ∧
    (apiSubmitClaim exStore
        { exClaimCreate with
          incidentDate := { micros := endOfDay exPolicy.endDate + usPerSec, aware := true } }
        exNow 99).2 = .error .incidentOutOfRange :=
  ⟨⟨by decide, by decide⟩,
   (submitClaim_end_of_day_boundary exStore exClaimCreate exNow 99 exPolicy
      (by decide) (by decide) (by decide) (by decide) (by decide) (by decide)
      (by decide) (by decide) (by decide) (by decide) (by decide)).2.1,
   (submitClaim_end_of_day_boundary exStore exClaimCreate exNow 99 exPolicy
      (by decide) (by decide) (by decide) (by decide) (by decide) (by decide)
      (by decide) (by decide) (by decide) (by decide) (by decide)).2.2.1⟩

end ClaimsMgmt
